import Mathlib

/-!
Verification of the WebSocket relay server core (`src/index.ts`):
connection registry, message routing (`onClientMessage`), heartbeat
monitor, and the asynchronous scrape-job bridge.

The embedding is shallow: JS runtime values appearing on the wire are
modelled by an inductive `Json` type, the `clients` Map by an association
list with unique keys (insertion order preserved, as in a JS `Map`), socket
identities by `Nat`, and `Date.now()` by an explicit `now : Nat` argument.
The message handler is a pure function from the inbound frame and the
registry snapshot to the ordered list of send events it performs; the
asynchronous continuation of a scrape job is a second pure function taking
the scrape outcome and the registry snapshot at completion time (the code
sends the initial `ack` synchronously, before the `async` closure first
awaits, so the split into two pure phases is exact).
-/

namespace Relay

/-- JS values produced by `JSON.parse` (no `undefined`: absence of a field is
`Option.none` at the access sites). -/
inductive Json where
  | null : Json
  | bool : Bool → Json
  | num : Int → Json
  | str : String → Json
  | arr : List Json → Json
  | obj : List (String × Json) → Json
deriving Repr

/-- JS truthiness of a defined value (`if (v)`). -/
def jsTruthy : Json → Bool
  | .null => false
  | .bool b => b
  | .num n => n != 0
  | .str s => s != ""
  | .arr _ => true
  | .obj _ => true

/-- The test `typeof v === "object"` for a defined JS value (`null`, arrays and plain
objects). -/
def jsTypeofObject : Json → Bool
  | .null => true
  | .arr _ => true
  | .obj _ => true
  | _ => false

/-- The test `v === null` for a defined JS value. -/
def jsIsNull : Json → Bool
  | .null => true
  | _ => false

/-- JS `Map.get k` on an association list (first match; a JS `Map` holds at most
one entry per key). Also used for property reads on parsed objects. -/
def mapGet {α : Type} : List (String × α) → String → Option α
  | [], _ => none
  | (k', v) :: rest, k => if k' = k then some v else mapGet rest k

/-- Property read `v[k]`; `none` is JS `undefined`. Arrays and primitives have
no string-named own properties here; objects from `JSON.parse` have unique
keys, read as first match. -/
def getField : Json → String → Option Json
  | .obj fields, k => mapGet fields k
  | _, _ => none

/-- Property write `v[k] = x` on an object: overwrite the existing key in
place, else append (JS property-assignment semantics). Non-objects are left
unchanged: an own property added to an array is dropped again by
`JSON.stringify`, and the fields the handler later reads are absent on arrays
either way. -/
def setField : Json → String → Json → Json
  | .obj fields, k, v => .obj (go fields k v)
  | j, _, _ => j
where go : List (String × Json) → String → Json → List (String × Json)
  | [], k, v => [(k, v)]
  | (k', v') :: rest, k, v =>
      if k' = k then (k, v) :: rest else (k', v') :: go rest k v

mutual

/-- JS `String(v)` for a defined value (used for `${...}` interpolation and the
`String(...)` call on the scrape username). -/
def jsToString : Json → String
  | .null => "null"
  | .bool b => if b then "true" else "false"
  | .num n => toString n
  | .str s => s
  | .arr xs => jsToStringList xs
  | .obj _ => "[object Object]"

/-- JS `Array.prototype.toString`: elements joined by `","`, with `null` elements
rendered empty. -/
def jsToStringList : List Json → String
  | [] => ""
  | [Json.null] => ""
  | [x] => jsToString x
  | Json.null :: rest => "," ++ jsToStringList rest
  | x :: rest => jsToString x ++ "," ++ jsToStringList rest

end

/-- Leading-whitespace strip on a character list. -/
def trimLeft : List Char → List Char
  | [] => []
  | c :: rest => if c.isWhitespace then trimLeft rest else c :: rest

/-- JS `s.trim()`. -/
def jsTrim (s : String) : String := ⟨(trimLeft (trimLeft s.data.reverse).reverse)⟩

/-- JS `s.toLowerCase()` (ASCII case mapping suffices for the ids involved). -/
def jsToLower (s : String) : String := ⟨s.data.map Char.toLower⟩

/-- The id normalization applied at registration time (line 205):
`query.id.trim().toLowerCase()`. -/
def normalizeId (s : String) : String := jsToLower (jsTrim s)

/-- Handshake id extraction (lines 203–211): a string `id` query parameter is
trimmed and lower-cased; a missing parameter or an empty result is falsy, and
the handshake is refused with a policy-violation close. -/
def acceptConnection (queryId : Option String) : Option String :=
  match queryId with
  | none => none
  | some s => if normalizeId s = "" then none else some (normalizeId s)

/-- An outbound wire envelope as serialized by the server. `from` is a Lean
keyword, hence the field name `from_`. `payload = none` models an absent
`payload` property (dropped by `JSON.stringify`). -/
structure Envelope where
  from_ : String
  to_ : Option String
  type : String
  payload : Option Json
  ts : Nat
deriving Repr

/-- Snapshot of one registered connection as the router sees it: `sock` is the
socket object's identity, `readyState` is `true` iff `WebSocket.OPEN`. -/
structure Conn where
  sock : Nat
  readyState : Bool
deriving Repr, DecidableEq

/-- The `clients` Map, routing view. -/
abbrev Registry := List (String × Conn)

/-- Function `sendTo(id, message)` (lines 72–84): look the id up in the registry; fail
unless found and open; otherwise emit the envelope (with `from` defaulted to
`"server"`, `to` set to the id, fresh `ts`). Returns the envelope written iff
delivered (`true`/`false` in the source). -/
def sendTo (clients : Registry) (id : String) (fromId : Option String)
    (type : String) (payload : Option Json) (now : Nat) : Option Envelope :=
  match mapGet clients id with
  | none => none
  | some ws =>
    if ws.readyState then
      some { from_ := fromId.getD "server", to_ := some id, type := type,
             payload := payload, ts := now }
    else none

/-- The direct-forward call `sendTo((msg as any).to as string, ...)` (line
288): the routing key is whatever JS value `msg.to` holds; registry keys are
all strings, so `Map.get` with a non-string key never hits. -/
def sendToValue (clients : Registry) (to_ : Json) (fromId : Option String)
    (type : String) (payload : Option Json) (now : Nat) : Option (String × Envelope) :=
  match to_ with
  | .str s => (sendTo clients s fromId type payload now).map (fun e => (s, e))
  | _ => none

/-- One outbound send performed by the handler: `ws.send` on the originating
socket, or a delivery to a registered client via `sendTo` (tagged with the
target id). -/
inductive SendEvent where
  | toSender : Envelope → SendEvent
  | toClient : String → Envelope → SendEvent
deriving Repr

/-- A `ws.send(JSON.stringify({from: "server", type, payload, ts}))` envelope
(no `to` property). -/
def serverMsg (type : String) (payload : Json) (now : Nat) : Envelope :=
  { from_ := "server", to_ := none, type := type, payload := some payload, ts := now }

/-- An in-flight scrape job: the state the `async` closure carries. -/
structure Job where
  username : String
deriving Repr, DecidableEq

/-- The expression `String((msg as any).payload?.username ?? "freekadelle_").trim()` (line
303): optional chaining yields `undefined` for an absent/`null`/non-object
payload, `??` replaces `undefined` and `null` by the constant default, then
the value is stringified and trimmed. -/
def scrapeUsername (payload : Option Json) : String :=
  let v : Json :=
    match payload.bind (fun p => getField p "username") with
    | none => .str "freekadelle_"
    | some .null => .str "freekadelle_"
    | some v => v
  jsTrim (jsToString v)

/-- Routing once `to` is absent or falsy (lines 302–347): the reserved
`tiktok:scrape` tag starts a job after an immediate ack; anything else is
echoed back wrapped in an `echo` envelope whose payload is `msg` (the parsed
object after the `from` stamp). -/
def routeNoTo (msg : Json) (ty : String) (now : Nat) : List SendEvent × Option Job :=
  if ty = "tiktok:scrape" then
    let username := scrapeUsername (getField msg "payload")
    ([.toSender (serverMsg "ack"
        (.obj [("started", .bool true), ("cmd", .str "tiktok:scrape"),
               ("username", .str username)]) now)],
     some { username := username })
  else
    ([.toSender (serverMsg "echo" msg now)], none)

/-- Handler `onClientMessage(id, ws, data)` (lines 263–348), immediate phase. `raw` is
the result of `JSON.parse` on the frame text (`none`: the parse threw). The
result is the ordered list of sends performed before the handler returns,
plus the scrape job the handler spawns, if any. -/
def onClientMessage (clients : Registry) (id : String) (raw : Option Json)
    (now : Nat) : List SendEvent × Option Job :=
  match raw with
  | none =>
    ([.toSender (serverMsg "error" (.obj [("message", .str "Invalid JSON")]) now)], none)
  | some parsed =>
    if !jsTypeofObject parsed || jsIsNull parsed then
      ([.toSender (serverMsg "error"
          (.obj [("message", .str "Invalid message format")]) now)], none)
    else
      let msg := setField parsed "from" (.str id)
      match getField msg "type" with
      | some (.str ty) =>
        match getField msg "to" with
        | some toVal =>
          if jsTruthy toVal then
            match sendToValue clients toVal (some id) ty (getField msg "payload") now with
            | some (target, env) =>
              ([.toClient target env,
                .toSender (serverMsg "ack"
                  (.obj [("to", toVal), ("type", .str ty)]) now)], none)
            | none =>
              ([.toSender (serverMsg "error"
                  (.obj [("message",
                    .str ("Target '" ++ jsToString toVal ++ "' not connected"))]) now)],
               none)
          else routeNoTo msg ty now
        | none => routeNoTo msg ty now
      | _ =>
        ([.toSender (serverMsg "error"
            (.obj [("message", .str "Missing 'type'")]) now)], none)

/-- Outcome of `scrapeTikTokStats(username)`: the resolved `result` value, or
the rejection's error message. -/
inductive ScrapeOutcome where
  | ok : Json → ScrapeOutcome
  | error : String → ScrapeOutcome
deriving Repr

/-- The expression `result?.profile?.followers ?? null` (line 317). -/
def followersOf (result : Json) : Json :=
  match getField result "profile" with
  | none => .null
  | some p =>
    match getField p "followers" with
    | none => .null
    | some v => v

/-- The continuation the job bridge runs when the scrape settles (lines
310–342, after the `await`): on success, attempt delivery of the followers
result to the TV client, notify the requester with a `done` envelope carrying
the delivery flag, and warn the requester when the TV was unreachable; on
failure, report to the requester and best-effort to the TV. `clients` is the
registry snapshot at completion time. -/
def jobComplete (clients : Registry) (tvId : String) (job : Job)
    (outcome : ScrapeOutcome) (startedAt now : Nat) : List SendEvent :=
  match outcome with
  | .ok result =>
    let followers := followersOf result
    let donePayload (delivered : Bool) : Json :=
      .obj [("username", .str job.username), ("followers", followers),
            ("deliveredToTv", .bool delivered)]
    match sendTo clients tvId none "tiktok:followers"
        (some (.obj [("username", .str job.username), ("followers", followers),
                     ("ts", .num now), ("durationMs", .num ((now : Int) - startedAt))])) now with
    | some env =>
      [.toClient tvId env,
       .toSender (serverMsg "tiktok:scrape:done" (donePayload true) now)]
    | none =>
      [.toSender (serverMsg "tiktok:scrape:done" (donePayload false) now),
       .toSender (serverMsg "warn"
         (.obj [("message", .str ("TV client '" ++ tvId ++ "' not connected")),
                ("username", .str job.username)]) now)]
  | .error message =>
    let errPayload : Json :=
      .obj [("username", .str job.username), ("message", .str message)]
    let toRequester := SendEvent.toSender (serverMsg "tiktok:scrape:error" errPayload now)
    match sendTo clients tvId none "tiktok:followers:error" (some errPayload) now with
    | some env => [toRequester, .toClient tvId env]
    | none => [toRequester]

/-- JS `Map.set`: overwrite the value at an existing key in place, else append
(a JS `Map` keeps insertion order and at most one entry per key). -/
def mapSet {α : Type} : List (String × α) → String → α → List (String × α)
  | [], k, v => [(k, v)]
  | (k', v') :: rest, k, v =>
      if k' = k then (k, v) :: rest else (k', v') :: mapSet rest k v

/-- The registration step of the connection handler (lines 213–219): a live
connection already holding the id is closed with reason
`"Replaced by new connection"` (code 1000), then the id is mapped to the new
socket. Returns the updated registry and the close call performed on the
superseded socket, if any. -/
def registerClient (clients : List (String × Nat)) (id : String) (ws : Nat) :
    List (String × Nat) × Option (Nat × String) :=
  match mapGet clients id with
  | some existing =>
    if existing ≠ ws then
      (mapSet clients id ws, some (existing, "Replaced by new connection"))
    else
      (mapSet clients id ws, none)
  | none => (mapSet clients id ws, none)

/-- The socket `close` listener (lines 233–239): delete the id only when the
closing socket is still the registered holder. -/
def onSocketClose (clients : List (String × Nat)) (id : String) (ws : Nat) :
    List (String × Nat) :=
  match mapGet clients id with
  | some current =>
    if current = ws then clients.filter (fun e => e.1 ≠ id) else clients
  | none => clients

/-- Per-connection heartbeat state: socket identity plus the `isAlive` flag. -/
structure HbConn where
  sock : Nat
  isAlive : Bool
deriving Repr, DecidableEq

/-- One tick of the 30-second heartbeat interval (lines 247–259): an entry
whose flag is still `false` is terminated and deleted; every survivor has its
flag cleared and receives a ping. Returns the surviving registry and the
terminated sockets. -/
def heartbeatTick : List (String × HbConn) → List (String × HbConn) × List Nat
  | [] => ([], [])
  | (id, c) :: rest =>
    let r := heartbeatTick rest
    if c.isAlive then ((id, ⟨c.sock, false⟩) :: r.1, r.2)
    else (r.1, c.sock :: r.2)

/-- The `pong` listener (line 226): the answering socket's liveness flag is
set back to `true`. -/
def onPong (clients : List (String × HbConn)) (sock : Nat) :
    List (String × HbConn) :=
  clients.map fun e => if e.2.sock = sock then (e.1, ⟨sock, true⟩) else e

/-- Replacing/adding key `k` in an object's field list leaves reads of any
other key unchanged. -/
theorem mapGet_setFieldGo_ne (fields : List (String × Json)) (k k' : String)
    (v : Json) (h : k' ≠ k) :
    mapGet (setField.go fields k v) k' = mapGet fields k' := by
  induction fields with
  | nil => simp [setField.go, mapGet, h, Ne.symm h]
  | cons hd tl ih =>
    obtain ⟨k₀, v₀⟩ := hd
    by_cases hk : k₀ = k
    · subst hk
      simp [setField.go, mapGet, h, Ne.symm h]
    · by_cases hk' : k₀ = k'
      · simp [setField.go, hk, mapGet, hk', h]
      · simp [setField.go, hk, mapGet, hk', h, ih]

/-- A property write to key `k` leaves reads of any other key unchanged. -/
theorem getField_setField_ne (j : Json) (k k' : String) (v : Json)
    (h : k' ≠ k) : getField (setField j k v) k' = getField j k' := by
  cases j <;> simp [setField, getField]
  exact mapGet_setFieldGo_ne _ _ _ _ h

/-- C3 (amended): for every well-formed inbound envelope (a JSON object with a
string `type`) without a truthy `to` and whose `type` is not the job tag, the
router sends back exactly one `echo` envelope with `from = "server"` whose
payload is the inbound message after the server has stamped `from` with the
sender's registry id (all other fields unchanged). -/
theorem echo_wraps_from_stamped_message (clients : Registry) (id ty : String)
    (fields : List (String × Json)) (now : Nat)
    (hty : getField (Json.obj fields) "type" = some (Json.str ty))
    (hscr : ty ≠ "tiktok:scrape")
    (hto : ∀ t, getField (Json.obj fields) "to" = some t → jsTruthy t = false) :
    onClientMessage clients id (some (Json.obj fields)) now =
      ([SendEvent.toSender
          (serverMsg "echo" (setField (Json.obj fields) "from" (Json.str id)) now)],
       none) := by
  have h1 : getField (setField (Json.obj fields) "from" (Json.str id)) "type" =
      some (Json.str ty) := by
    rw [getField_setField_ne _ _ _ _ (by decide)]; exact hty
  have h2 : getField (setField (Json.obj fields) "from" (Json.str id)) "to" =
      getField (Json.obj fields) "to" :=
    getField_setField_ne _ _ _ _ (by decide)
  simp only [onClientMessage, jsTypeofObject, jsIsNull, Bool.not_true, Bool.false_or,
    Bool.or_self, if_false, h1, h2]
  cases hcase : getField (Json.obj fields) "to" with
  | none => simp [routeNoTo, hscr]
  | some t =>
    have := hto t hcase
    simp [this, routeNoTo, hscr]

/-- C3 (counterexample): the claim that the `echo` payload is the inbound
message verbatim is false. For the inbound object `{"type": "hello"}` from
sender `alice`, the handler sends exactly one `echo` whose payload is
`{"type": "hello", "from": "alice"}` — not the inbound message, because the
handler mutates `msg.from` before echoing `msg`. -/
theorem echo_payload_not_verbatim :
    onClientMessage [] "alice" (some (Json.obj [("type", Json.str "hello")])) 7 =
      ([SendEvent.toSender (serverMsg "echo"
          (Json.obj [("type", Json.str "hello"), ("from", Json.str "alice")]) 7)],
       none) ∧
    Json.obj [("type", Json.str "hello"), ("from", Json.str "alice")] ≠
      Json.obj [("type", Json.str "hello")] := by
  refine ⟨rfl, ?_⟩
  simp

/-- C3 (witness): the amended echo theorem at a concrete input: an envelope
`{"type": "chat", "note": "hi", "from": "eve"}` from sender `bob` comes back
as one `echo` wrapping the message with `from` overwritten to `"bob"`. -/
theorem echo_wraps_from_stamped_message_witness :
    onClientMessage [] "bob"
        (some (Json.obj [("type", Json.str "chat"), ("note", Json.str "hi"),
                         ("from", Json.str "eve")])) 3 =
      ([SendEvent.toSender (serverMsg "echo"
          (Json.obj [("type", Json.str "chat"), ("note", Json.str "hi"),
                     ("from", Json.str "bob")]) 3)], none) :=
  echo_wraps_from_stamped_message [] "bob" "chat"
    [("type", Json.str "chat"), ("note", Json.str "hi"), ("from", Json.str "eve")] 3
    rfl (by decide) (fun t ht => by simp [getField, mapGet] at ht)

/-- C4: every malformed inbound frame — bytes that fail `JSON.parse`, a parsed
value that is not an object (or is `null`), or an object-typed value without a
string `type` — produces exactly one `error` envelope sent on the originating
socket, no delivery to any other connection, and no job; the handler is a
total function, so no exception escapes it. -/
theorem malformed_frame_single_error (clients : Registry) (id : String) (now : Nat) :
    (onClientMessage clients id none now =
      ([SendEvent.toSender (serverMsg "error"
          (Json.obj [("message", Json.str "Invalid JSON")]) now)], none)) ∧
    (∀ j : Json, jsTypeofObject j = false ∨ j = Json.null →
      onClientMessage clients id (some j) now =
        ([SendEvent.toSender (serverMsg "error"
            (Json.obj [("message", Json.str "Invalid message format")]) now)], none)) ∧
    (∀ j : Json, jsTypeofObject j = true → j ≠ Json.null →
      (∀ s, getField (setField j "from" (Json.str id)) "type" ≠ some (Json.str s)) →
      onClientMessage clients id (some j) now =
        ([SendEvent.toSender (serverMsg "error"
            (Json.obj [("message", Json.str "Missing 'type'")]) now)], none)) := by
  refine ⟨rfl, ?_, ?_⟩
  · rintro j (h | rfl)
    · simp [onClientMessage, h]
    · simp [onClientMessage, jsTypeofObject, jsIsNull]
  · intro j h1 h2 h3
    have hnull : jsIsNull j = false := by
      cases j <;> simp [jsIsNull]
      exact absurd rfl h2
    rcases hty : getField (setField j "from" (Json.str id)) "type" with _ | v
    · simp [onClientMessage, h1, hnull, hty]
    · cases v <;> simp [onClientMessage, h1, hnull, hty]
      exact absurd hty (h3 _)

/-- C4 (witness): the three malformed cases at concrete inputs: unparsable
bytes, the non-object `"x"`, and the empty array (object-typed but without a
string `type`). -/
theorem malformed_frame_single_error_witness :
    (onClientMessage [] "a" none 3 =
      ([SendEvent.toSender (serverMsg "error"
          (Json.obj [("message", Json.str "Invalid JSON")]) 3)], none)) ∧
    (onClientMessage [] "a" (some (Json.str "x")) 3 =
      ([SendEvent.toSender (serverMsg "error"
          (Json.obj [("message", Json.str "Invalid message format")]) 3)], none)) ∧
    (onClientMessage [] "a" (some (Json.arr [])) 3 =
      ([SendEvent.toSender (serverMsg "error"
          (Json.obj [("message", Json.str "Missing 'type'")]) 3)], none)) :=
  ⟨(malformed_frame_single_error [] "a" 3).1,
   (malformed_frame_single_error [] "a" 3).2.1 (Json.str "x") (Or.inl rfl),
   (malformed_frame_single_error [] "a" 3).2.2 (Json.arr []) rfl (by simp)
     (fun s h => by simp [getField, setField, mapGet] at h)⟩

/-- C1: an inbound object with a string `type` and a non-empty string `to`
naming a registered, open client yields exactly one forwarded envelope to that
target (`from` = sender id, `type`/`payload` unchanged, fresh `ts`) and
exactly one `ack` to the sender carrying `{to, type}`, and no job — even when
`type` is the job tag; if the target is absent or not open, no forward occurs
and exactly one `error` naming the target goes to the sender. -/
theorem direct_forward_exactly_once (clients : Registry) (id s ty : String)
    (fields : List (String × Json)) (now : Nat)
    (hto : getField (Json.obj fields) "to" = some (Json.str s))
    (hs : s ≠ "")
    (hty : getField (Json.obj fields) "type" = some (Json.str ty)) :
    ((∃ ws, mapGet clients s = some ws ∧ ws.readyState = true) →
      onClientMessage clients id (some (Json.obj fields)) now =
        ([SendEvent.toClient s
            { from_ := id, to_ := some s, type := ty,
              payload := getField (Json.obj fields) "payload", ts := now },
          SendEvent.toSender (serverMsg "ack"
            (Json.obj [("to", Json.str s), ("type", Json.str ty)]) now)], none)) ∧
    ((∀ ws, mapGet clients s = some ws → ws.readyState = false) →
      onClientMessage clients id (some (Json.obj fields)) now =
        ([SendEvent.toSender (serverMsg "error"
            (Json.obj [("message",
              Json.str ("Target '" ++ s ++ "' not connected"))]) now)],
         none)) := by
  have h1 : getField (setField (Json.obj fields) "from" (Json.str id)) "type" =
      some (Json.str ty) := by
    rw [getField_setField_ne _ _ _ _ (by decide)]; exact hty
  have h2 : getField (setField (Json.obj fields) "from" (Json.str id)) "to" =
      some (Json.str s) := by
    rw [getField_setField_ne _ _ _ _ (by decide)]; exact hto
  have h3 : getField (setField (Json.obj fields) "from" (Json.str id)) "payload" =
      getField (Json.obj fields) "payload" :=
    getField_setField_ne _ _ _ _ (by decide)
  have htruthy : jsTruthy (Json.str s) = true := by simp [jsTruthy, hs]
  constructor
  · rintro ⟨ws, hws, hopen⟩
    simp [onClientMessage, jsTypeofObject, jsIsNull, h1, h2, h3, htruthy,
      sendToValue, sendTo, hws, hopen, jsToString, serverMsg, Option.getD]
  · intro hclosed
    cases hws : mapGet clients s with
    | none =>
      simp [onClientMessage, jsTypeofObject, jsIsNull, h1, h2, htruthy,
        sendToValue, sendTo, hws, jsToString]
    | some ws =>
      have hdead := hclosed ws hws
      simp [onClientMessage, jsTypeofObject, jsIsNull, h1, h2, htruthy,
        sendToValue, sendTo, hws, hdead, jsToString]

/-- C1 (witness): from sender `a`, the envelope
`{"type": "tiktok:scrape", "to": "bob", "payload": "x"}` with `bob` registered
and open is forwarded to `bob` once and acked once, spawning no job even
though `type` equals the job tag. -/
theorem direct_forward_exactly_once_witness :
    onClientMessage [("bob", ⟨1, true⟩)] "a"
        (some (Json.obj [("type", Json.str "tiktok:scrape"), ("to", Json.str "bob"),
                         ("payload", Json.str "x")])) 5 =
      ([SendEvent.toClient "bob"
          { from_ := "a", to_ := some "bob", type := "tiktok:scrape",
            payload := some (Json.str "x"), ts := 5 },
        SendEvent.toSender (serverMsg "ack"
          (Json.obj [("to", Json.str "bob"), ("type", Json.str "tiktok:scrape")]) 5)],
       none) :=
  (direct_forward_exactly_once [("bob", ⟨1, true⟩)] "a" "bob" "tiktok:scrape"
      [("type", Json.str "tiktok:scrape"), ("to", Json.str "bob"),
       ("payload", Json.str "x")] 5 rfl (by decide) rfl).1
    ⟨⟨1, true⟩, rfl, rfl⟩

/-- C2: a job-dispatch envelope (`type = "tiktok:scrape"`, no truthy `to`)
from requester R is acked immediately — before the scrape runs, which happens
only in the completion phase — echoing the username; when the scrape resolves,
a `tiktok:followers` envelope `{username, followers, ts, durationMs}` is
delivered to the receiver id if it is connected and open, a
`tiktok:scrape:done` envelope `{username, followers, deliveredToTv}` goes to
R, and exactly when receiver delivery failed an additional `warn` goes to R. -/
theorem job_dispatch_ack_then_result (clients : Registry) (id tvId : String)
    (fields : List (String × Json)) (now : Nat)
    (hty : getField (Json.obj fields) "type" = some (Json.str "tiktok:scrape"))
    (hto : ∀ t, getField (Json.obj fields) "to" = some t → jsTruthy t = false) :
    (onClientMessage clients id (some (Json.obj fields)) now =
      ([SendEvent.toSender (serverMsg "ack"
          (Json.obj [("started", Json.bool true), ("cmd", Json.str "tiktok:scrape"),
                     ("username",
                      Json.str (scrapeUsername (getField (Json.obj fields) "payload")))])
          now)],
       some { username := scrapeUsername (getField (Json.obj fields) "payload") })) ∧
    (∀ (clients2 : Registry) (result : Json) (startedAt now2 : Nat) (u : String),
      (∃ ws, mapGet clients2 tvId = some ws ∧ ws.readyState = true) →
      jobComplete clients2 tvId { username := u } (ScrapeOutcome.ok result) startedAt now2 =
        [SendEvent.toClient tvId
          { from_ := "server", to_ := some tvId, type := "tiktok:followers",
            payload := some (Json.obj
              [("username", Json.str u), ("followers", followersOf result),
               ("ts", Json.num now2),
               ("durationMs", Json.num ((now2 : Int) - startedAt))]),
            ts := now2 },
         SendEvent.toSender (serverMsg "tiktok:scrape:done"
           (Json.obj [("username", Json.str u), ("followers", followersOf result),
                      ("deliveredToTv", Json.bool true)]) now2)]) ∧
    (∀ (clients2 : Registry) (result : Json) (startedAt now2 : Nat) (u : String),
      (∀ ws, mapGet clients2 tvId = some ws → ws.readyState = false) →
      jobComplete clients2 tvId { username := u } (ScrapeOutcome.ok result) startedAt now2 =
        [SendEvent.toSender (serverMsg "tiktok:scrape:done"
           (Json.obj [("username", Json.str u), ("followers", followersOf result),
                      ("deliveredToTv", Json.bool false)]) now2),
         SendEvent.toSender (serverMsg "warn"
           (Json.obj [("message", Json.str ("TV client '" ++ tvId ++ "' not connected")),
                      ("username", Json.str u)]) now2)]) := by
  have h1 : getField (setField (Json.obj fields) "from" (Json.str id)) "type" =
      some (Json.str "tiktok:scrape") := by
    rw [getField_setField_ne _ _ _ _ (by decide)]; exact hty
  have h2 : getField (setField (Json.obj fields) "from" (Json.str id)) "to" =
      getField (Json.obj fields) "to" :=
    getField_setField_ne _ _ _ _ (by decide)
  have h3 : getField (setField (Json.obj fields) "from" (Json.str id)) "payload" =
      getField (Json.obj fields) "payload" :=
    getField_setField_ne _ _ _ _ (by decide)
  refine ⟨?_, ?_, ?_⟩
  · simp only [onClientMessage, jsTypeofObject, jsIsNull, Bool.not_true,
      Bool.false_or, Bool.or_self, if_false, h1, h2]
    cases hcase : getField (Json.obj fields) "to" with
    | none => simp [routeNoTo, h3]
    | some t =>
      have := hto t hcase
      simp [this, routeNoTo, h3]
  · rintro clients2 result startedAt now2 u ⟨ws, hws, hopen⟩
    simp [jobComplete, sendTo, hws, hopen]
  · intro clients2 result startedAt now2 u hclosed
    cases hws : mapGet clients2 tvId with
    | none => simp [jobComplete, sendTo, hws]
    | some ws =>
      have hdead := hclosed ws hws
      simp [jobComplete, sendTo, hws, hdead]

/-- C2 (witness): requester `r1` sends
`{"type": "tiktok:scrape", "payload": {"username": " Alice "}}`: the immediate
phase acks with the trimmed username and spawns the job; completion with a
profile of 10 followers and receiver `tv` connected delivers the followers
envelope to `tv` and the `done` (deliveredToTv = true) to `r1`. -/
theorem job_dispatch_ack_then_result_witness :
    (onClientMessage [] "r1"
        (some (Json.obj [("type", Json.str "tiktok:scrape"),
          ("payload", Json.obj [("username", Json.str " Alice ")])])) 9 =
      ([SendEvent.toSender (serverMsg "ack"
          (Json.obj [("started", Json.bool true), ("cmd", Json.str "tiktok:scrape"),
                     ("username", Json.str "Alice")]) 9)],
       some { username := "Alice" })) ∧
    (jobComplete [("tv", ⟨2, true⟩)] "tv" { username := "Alice" }
        (ScrapeOutcome.ok (Json.obj [("profile",
          Json.obj [("followers", Json.num 10)])])) 9 15 =
      [SendEvent.toClient "tv"
        { from_ := "server", to_ := some "tv", type := "tiktok:followers",
          payload := some (Json.obj
            [("username", Json.str "Alice"), ("followers", Json.num 10),
             ("ts", Json.num 15), ("durationMs", Json.num 6)]),
          ts := 15 },
       SendEvent.toSender (serverMsg "tiktok:scrape:done"
         (Json.obj [("username", Json.str "Alice"), ("followers", Json.num 10),
                    ("deliveredToTv", Json.bool true)]) 15)]) := by
  have h := job_dispatch_ack_then_result [] "r1" "tv"
    [("type", Json.str "tiktok:scrape"),
     ("payload", Json.obj [("username", Json.str " Alice ")])] 9
    rfl (fun t ht => by simp [getField, mapGet] at ht)
  exact ⟨h.1, h.2.1 [("tv", ⟨2, true⟩)]
    (Json.obj [("profile", Json.obj [("followers", Json.num 10)])]) 9 15 "Alice"
    ⟨⟨2, true⟩, rfl, rfl⟩⟩

/-- C7: when a scrape fails, the completion phase sends exactly one
`tiktok:scrape:error` envelope with the failure message to the requester's
socket, and best-effort attempts one `tiktok:followers:error` envelope with
the same username and message to the receiver id (the attempt's outcome is not
re-checked and triggers nothing further); no other connection receives
anything. -/
theorem scrape_failure_reports (clients : Registry) (tvId u message : String)
    (startedAt now : Nat) :
    ((∃ ws, mapGet clients tvId = some ws ∧ ws.readyState = true) →
      jobComplete clients tvId { username := u } (ScrapeOutcome.error message)
          startedAt now =
        [SendEvent.toSender (serverMsg "tiktok:scrape:error"
           (Json.obj [("username", Json.str u), ("message", Json.str message)]) now),
         SendEvent.toClient tvId
           { from_ := "server", to_ := some tvId, type := "tiktok:followers:error",
             payload := some (Json.obj [("username", Json.str u),
                                        ("message", Json.str message)]),
             ts := now }]) ∧
    ((∀ ws, mapGet clients tvId = some ws → ws.readyState = false) →
      jobComplete clients tvId { username := u } (ScrapeOutcome.error message)
          startedAt now =
        [SendEvent.toSender (serverMsg "tiktok:scrape:error"
           (Json.obj [("username", Json.str u), ("message", Json.str message)]) now)]) := by
  constructor
  · rintro ⟨ws, hws, hopen⟩
    simp [jobComplete, sendTo, hws, hopen]
  · intro hclosed
    cases hws : mapGet clients tvId with
    | none => simp [jobComplete, sendTo, hws]
    | some ws =>
      have hdead := hclosed ws hws
      simp [jobComplete, sendTo, hws, hdead]

/-- C7 (witness): with the receiver disconnected, a failed scrape for `bob`
with message `boom` yields exactly the one error envelope to the requester. -/
theorem scrape_failure_reports_witness :
    jobComplete [] "tv" { username := "bob" } (ScrapeOutcome.error "boom") 1 4 =
      [SendEvent.toSender (serverMsg "tiktok:scrape:error"
        (Json.obj [("username", Json.str "bob"), ("message", Json.str "boom")]) 4)] :=
  (scrape_failure_reports [] "tv" "bob" "boom" 1 4).2 (fun ws h => by simp [mapGet] at h)

/-- C10: a job-dispatch envelope whose payload lacks a `username` (or carries
`null` there) is not rejected: the job is spawned with the hard-coded default
`"freekadelle_"`; and in every case the username used is the JS string
conversion of the supplied value with surrounding whitespace trimmed. -/
theorem scrape_username_defaulting (clients : Registry) (id : String)
    (fields : List (String × Json)) (now : Nat)
    (hty : getField (Json.obj fields) "type" = some (Json.str "tiktok:scrape"))
    (hto : ∀ t, getField (Json.obj fields) "to" = some t → jsTruthy t = false) :
    ((onClientMessage clients id (some (Json.obj fields)) now).2 =
      some { username := scrapeUsername (getField (Json.obj fields) "payload") }) ∧
    (∀ payload : Option Json,
      payload.bind (fun p => getField p "username") = none ∨
      payload.bind (fun p => getField p "username") = some Json.null →
      scrapeUsername payload = "freekadelle_") ∧
    (∀ (payload : Option Json) (v : Json),
      payload.bind (fun p => getField p "username") = some v → v ≠ Json.null →
      scrapeUsername payload = jsTrim (jsToString v)) := by
  have h1 : getField (setField (Json.obj fields) "from" (Json.str id)) "type" =
      some (Json.str "tiktok:scrape") := by
    rw [getField_setField_ne _ _ _ _ (by decide)]; exact hty
  have h2 : getField (setField (Json.obj fields) "from" (Json.str id)) "to" =
      getField (Json.obj fields) "to" :=
    getField_setField_ne _ _ _ _ (by decide)
  have h3 : getField (setField (Json.obj fields) "from" (Json.str id)) "payload" =
      getField (Json.obj fields) "payload" :=
    getField_setField_ne _ _ _ _ (by decide)
  refine ⟨?_, ?_, ?_⟩
  · simp only [onClientMessage, jsTypeofObject, jsIsNull, Bool.not_true,
      Bool.false_or, Bool.or_self, if_false, h1, h2]
    cases hcase : getField (Json.obj fields) "to" with
    | none => simp [routeNoTo, h3]
    | some t =>
      have := hto t hcase
      simp [this, routeNoTo, h3]
  · rintro payload (h | h) <;> simp [scrapeUsername, h] <;> rfl
  · intro payload v h hne
    cases v <;> simp [scrapeUsername, h]
    exact absurd rfl hne

/-- C10 (witness): a dispatch without any payload spawns the job with the
default username; a `null` username also defaults; and the numeric username
`5` is used as the string `"5"`. -/
theorem scrape_username_defaulting_witness :
    ((onClientMessage [] "r1"
        (some (Json.obj [("type", Json.str "tiktok:scrape")])) 2).2 =
      some { username := "freekadelle_" }) ∧
    scrapeUsername (some (Json.obj [("username", Json.null)])) = "freekadelle_" ∧
    scrapeUsername (some (Json.obj [("username", Json.num 5)])) = "5" := by
  have h := scrape_username_defaulting [] "r1" [("type", Json.str "tiktok:scrape")] 2
    rfl (fun t ht => by simp [getField, mapGet] at ht)
  exact ⟨h.1, h.2.1 (some (Json.obj [("username", Json.null)])) (Or.inr rfl),
    h.2.2 (some (Json.obj [("username", Json.num 5)])) (Json.num 5) rfl (by simp)⟩

/-- Reading via `Map.get` misses exactly the keys not present. -/
theorem mapGet_eq_none_iff {α : Type} (m : List (String × α)) (k : String) :
    mapGet m k = none ↔ k ∉ m.map Prod.fst := by
  induction m with
  | nil => simp [mapGet]
  | cons hd tl ih =>
    obtain ⟨k₀, v₀⟩ := hd
    by_cases hk : k₀ = k
    · simp [mapGet, hk]
    · simp [mapGet, hk, ih, Ne.symm hk]

/-- Writing via `Map.set` makes the written key read back the written value. -/
theorem mapGet_mapSet_self {α : Type} (m : List (String × α)) (k : String) (v : α) :
    mapGet (mapSet m k v) k = some v := by
  induction m with
  | nil => simp [mapSet, mapGet]
  | cons hd tl ih =>
    obtain ⟨k₀, v₀⟩ := hd
    by_cases hk : k₀ = k
    · simp [mapSet, hk, mapGet]
    · simp [mapSet, hk, mapGet, ih]

/-- Writing via `Map.set` leaves the key sequence unchanged when the key exists, else
appends it. -/
theorem keys_mapSet {α : Type} (m : List (String × α)) (k : String) (v : α) :
    (mapSet m k v).map Prod.fst =
      if k ∈ m.map Prod.fst then m.map Prod.fst else m.map Prod.fst ++ [k] := by
  induction m with
  | nil => simp [mapSet]
  | cons hd tl ih =>
    obtain ⟨k₀, v₀⟩ := hd
    by_cases hk : k₀ = k
    · simp [mapSet, hk]
    · simp only [mapSet, hk, if_false, List.map_cons, List.mem_cons, ih]
      by_cases hmem : k ∈ tl.map Prod.fst
      · simp [hmem, Ne.symm hk]
      · simp [hmem, Ne.symm hk]

/-- Writing via `Map.set` keeps keys pairwise distinct. -/
theorem nodup_keys_mapSet {α : Type} (m : List (String × α)) (k : String) (v : α)
    (h : (m.map Prod.fst).Nodup) : ((mapSet m k v).map Prod.fst).Nodup := by
  rw [keys_mapSet]
  by_cases hmem : k ∈ m.map Prod.fst
  · simpa [hmem] using h
  · simp [hmem, List.nodup_append, h]

/-- C5: registering an id already held by a different socket closes the old
socket with the distinguishable reason `"Replaced by new connection"` in the
same atomic step that installs the new one; afterwards the id reads back only
the new socket, and the registry still holds at most one entry per id. -/
theorem register_replaces_atomically (clients : List (String × Nat)) (id : String)
    (c1 c2 : Nat) (hnodup : (clients.map Prod.fst).Nodup)
    (hcur : mapGet clients id = some c1) (hne : c1 ≠ c2) :
    (registerClient clients id c2).2 = some (c1, "Replaced by new connection") ∧
    mapGet (registerClient clients id c2).1 id = some c2 ∧
    ((registerClient clients id c2).1.map Prod.fst).Nodup := by
  simp [registerClient, hcur, hne, mapGet_mapSet_self,
    nodup_keys_mapSet _ _ _ hnodup]

/-- C5 (witness): re-registering `alice` (held by socket 1) with socket 2
closes socket 1 with the replacement reason and leaves only socket 2. -/
theorem register_replaces_atomically_witness :
    (registerClient [("alice", 1)] "alice" 2).2 =
      some (1, "Replaced by new connection") ∧
    mapGet (registerClient [("alice", 1)] "alice" 2).1 "alice" = some 2 ∧
    ((registerClient [("alice", 1)] "alice" 2).1.map Prod.fst).Nodup :=
  register_replaces_atomically [("alice", 1)] "alice" 1 2
    (by simp) rfl (by decide)

/-- Deleting a key removes it and touches no other key. -/
theorem mapGet_filter_out_key {α : Type} (m : List (String × α)) (id : String) :
    mapGet (m.filter (fun e => e.1 ≠ id)) id = none ∧
    ∀ k, k ≠ id → mapGet (m.filter (fun e => e.1 ≠ id)) k = mapGet m k := by
  induction m with
  | nil => simp [mapGet]
  | cons hd tl ih =>
    obtain ⟨k₀, v₀⟩ := hd
    by_cases hk : k₀ = id
    · refine ⟨?_, ?_⟩
      · simpa [List.filter, hk, mapGet] using ih.1
      · intro k hkn
        have hik : ¬(id = k) := fun h => hkn h.symm
        simp only [List.filter, hk, mapGet, hik]
        simpa using ih.2 k hkn
    · refine ⟨?_, ?_⟩
      · simpa [List.filter, hk, mapGet, hk] using ih.1
      · intro k hkn
        by_cases hk' : k₀ = k
        · simp [List.filter, hk, mapGet, hk', hkn]
        · simp [List.filter, hk, mapGet, hk', hkn]
          simpa using ih.2 k hkn

/-- C9: the close handler removes a registry entry only when the closing
socket is still the holder: a stale close (different holder, or id absent) is
a no-op leaving the registry unchanged, and a current-holder close removes
exactly that id. -/
theorem close_removes_only_current (clients : List (String × Nat)) (id : String)
    (ws : Nat) :
    (∀ current, mapGet clients id = some current → current ≠ ws →
       onSocketClose clients id ws = clients) ∧
    (mapGet clients id = none → onSocketClose clients id ws = clients) ∧
    (mapGet clients id = some ws →
       mapGet (onSocketClose clients id ws) id = none ∧
       ∀ k, k ≠ id → mapGet (onSocketClose clients id ws) k = mapGet clients k) := by
  refine ⟨?_, ?_, ?_⟩
  · intro current hcur hne
    simp [onSocketClose, hcur, hne]
  · intro hnone
    simp [onSocketClose, hnone]
  · intro hcur
    simp only [onSocketClose, hcur, if_pos rfl]
    exact mapGet_filter_out_key clients id

/-- C9 (witness): after socket 1's id `a` was replaced by socket 2, socket 1's
late close leaves the registry unchanged; socket 2's own close removes `a`
without touching `b`. -/
theorem close_removes_only_current_witness :
    onSocketClose [("a", 2), ("b", 3)] "a" 1 = [("a", 2), ("b", 3)] ∧
    (mapGet (onSocketClose [("a", 2), ("b", 3)] "a" 2) "a" = none ∧
     mapGet (onSocketClose [("a", 2), ("b", 3)] "a" 2) "b" =
       mapGet [("a", 2), ("b", 3)] "b") :=
  ⟨(close_removes_only_current [("a", 2), ("b", 3)] "a" 1).1 2 rfl (by decide),
   ((close_removes_only_current [("a", 2), ("b", 3)] "a" 2).2.2 rfl).1,
   ((close_removes_only_current [("a", 2), ("b", 3)] "a" 2).2.2 rfl).2 "b" (by decide)⟩

/-- A heartbeat tick only ever removes entries (it never adds or reorders). -/
theorem keys_heartbeatTick_sublist (m : List (String × HbConn)) :
    ((heartbeatTick m).1.map Prod.fst).Sublist (m.map Prod.fst) := by
  induction m with
  | nil => simp [heartbeatTick]
  | cons hd tl ih =>
    obtain ⟨k, c⟩ := hd
    by_cases ha : c.isAlive
    · simpa [heartbeatTick, ha] using ih.cons₂ k
    · simpa [heartbeatTick, ha] using ih.cons k

/-- Reading an id after a tick: a dead entry is gone, a live one survives with
its flag cleared. -/
theorem mapGet_heartbeatTick (m : List (String × HbConn))
    (hnodup : (m.map Prod.fst).Nodup) (id : String) :
    mapGet (heartbeatTick m).1 id =
      (mapGet m id).bind
        (fun c => if c.isAlive then some ⟨c.sock, false⟩ else none) := by
  induction m with
  | nil => simp [heartbeatTick, mapGet]
  | cons hd tl ih =>
    obtain ⟨k, c⟩ := hd
    simp only [List.map_cons, List.nodup_cons] at hnodup
    by_cases hk : k = id
    · subst hk
      by_cases ha : c.isAlive
      · simp [heartbeatTick, ha, mapGet]
      · have : mapGet (heartbeatTick tl).1 k = none := by
          rw [mapGet_eq_none_iff]
          intro hmem
          exact hnodup.1 ((keys_heartbeatTick_sublist tl).mem hmem)
        simp [heartbeatTick, ha, mapGet, this]
    · by_cases ha : c.isAlive
      · simp [heartbeatTick, ha, mapGet, hk, ih hnodup.2]
      · simp [heartbeatTick, ha, mapGet, hk, ih hnodup.2]

/-- A dead entry's socket appears among the sockets a tick terminates. -/
theorem sock_terminated_of_dead (m : List (String × HbConn)) (id : String)
    (c : HbConn) (hcur : mapGet m id = some c) (hdead : c.isAlive = false) :
    c.sock ∈ (heartbeatTick m).2 := by
  induction m with
  | nil => simp [mapGet] at hcur
  | cons hd tl ih =>
    obtain ⟨k, c'⟩ := hd
    by_cases hk : k = id
    · subst hk
      have hc : c' = c := by simpa [mapGet] using hcur
      subst hc
      simp [heartbeatTick, hdead]
    · simp only [mapGet, hk, if_false] at hcur
      by_cases ha : c'.isAlive <;> simp [heartbeatTick, ha, ih hcur]

/-- A pong rewrites liveness flags only; the key sequence is untouched. -/
theorem keys_onPong (m : List (String × HbConn)) (s : Nat) :
    (onPong m s).map Prod.fst = m.map Prod.fst := by
  induction m with
  | nil => simp [onPong]
  | cons hd tl ih =>
    obtain ⟨k, c⟩ := hd
    by_cases hs : c.sock = s <;> simp [onPong, hs] <;> simpa [onPong] using ih

/-- Reading an id after a pong: the flag of a matching socket is `true`. -/
theorem mapGet_onPong (m : List (String × HbConn)) (s : Nat) (id : String) :
    mapGet (onPong m s) id =
      (mapGet m id).map (fun c => if c.sock = s then ⟨s, true⟩ else c) := by
  induction m with
  | nil => simp [onPong, mapGet]
  | cons hd tl ih =>
    obtain ⟨k, c⟩ := hd
    simp only [onPong, List.map_cons] at ih ⊢
    by_cases hs : c.sock = s
    · rw [if_pos hs]
      by_cases hk : k = id
      · simp [mapGet, hk, hs, ih]
      · simp [mapGet, hk, ih]
    · rw [if_neg hs]
      by_cases hk : k = id
      · simp [mapGet, hk, hs, ih]
      · simp [mapGet, hk, ih]

/-- One probe round (tick, then answered pong) keeps a live entry registered,
live, and the registry's keys distinct. -/
theorem heartbeat_round_preserves_alive (id : String) (s : Nat)
    (m : List (String × HbConn)) (hnodup : (m.map Prod.fst).Nodup)
    (hcur : mapGet m id = some ⟨s, true⟩) :
    ((onPong (heartbeatTick m).1 s).map Prod.fst).Nodup ∧
    mapGet (onPong (heartbeatTick m).1 s) id = some ⟨s, true⟩ := by
  constructor
  · rw [keys_onPong]
    exact hnodup.sublist (keys_heartbeatTick_sublist m)
  · rw [mapGet_onPong, mapGet_heartbeatTick m hnodup, hcur]
    simp

/-- A connection answering every probe is still registered and live after any
number of probe rounds. -/
theorem alive_never_evicted (id : String) (s : Nat) :
    ∀ (n : Nat) (m : List (String × HbConn)), (m.map Prod.fst).Nodup →
      mapGet m id = some ⟨s, true⟩ →
      mapGet ((fun m => onPong (heartbeatTick m).1 s)^[n] m) id = some ⟨s, true⟩
  | 0, m, _, hcur => by simpa using hcur
  | n + 1, m, hnodup, hcur => by
    rw [Function.iterate_succ_apply]
    exact alive_never_evicted id s n _
      (heartbeat_round_preserves_alive id s m hnodup hcur).1
      (heartbeat_round_preserves_alive id s m hnodup hcur).2

/-- C6: a registered connection whose liveness flag is `false` at a tick is
terminated and removed by that tick; a connection that never answers is gone
within two ticks whatever its starting flag; and a connection that answers
every probe (its flag reset to `true` by the pong before the next tick) is
never evicted by the heartbeat, over any number of rounds. -/
theorem heartbeat_eviction_and_survival (clients : List (String × HbConn))
    (id : String) (c : HbConn) (hnodup : (clients.map Prod.fst).Nodup)
    (hcur : mapGet clients id = some c) :
    (c.isAlive = false →
      mapGet (heartbeatTick clients).1 id = none ∧
      c.sock ∈ (heartbeatTick clients).2) ∧
    mapGet (heartbeatTick (heartbeatTick clients).1).1 id = none ∧
    (c.isAlive = true → ∀ n : Nat,
      mapGet ((fun m => onPong (heartbeatTick m).1 c.sock)^[n] clients) id =
        some ⟨c.sock, true⟩) := by
  refine ⟨?_, ?_, ?_⟩
  · intro hdead
    refine ⟨?_, sock_terminated_of_dead clients id c hcur hdead⟩
    rw [mapGet_heartbeatTick clients hnodup, hcur]
    simp [hdead]
  · rw [mapGet_heartbeatTick _ (hnodup.sublist (keys_heartbeatTick_sublist clients)),
      mapGet_heartbeatTick clients hnodup, hcur]
    by_cases ha : c.isAlive <;> simp [ha]
  · intro halive n
    obtain ⟨s, a⟩ := c
    cases a
    · cases halive
    · exact alive_never_evicted id s n clients hnodup hcur

/-- C6 (witness): with `a` live and `b` already silent (flag false), one tick
terminates `b` (socket 2) and keeps `a`; the silent `a` is gone after the
second tick; and an `a` that answers every probe is still registered after
three full rounds. -/
theorem heartbeat_eviction_and_survival_witness :
    (mapGet (heartbeatTick [("a", ⟨1, true⟩), ("b", ⟨2, false⟩)]).1 "b" = none ∧
     (2 : Nat) ∈ (heartbeatTick [("a", ⟨1, true⟩), ("b", ⟨2, false⟩)]).2) ∧
    mapGet (heartbeatTick (heartbeatTick
      [("a", ⟨1, true⟩), ("b", ⟨2, false⟩)]).1).1 "a" = none ∧
    mapGet ((fun m => onPong (heartbeatTick m).1 1)^[3]
      [("a", ⟨1, true⟩), ("b", ⟨2, false⟩)]) "a" = some ⟨1, true⟩ :=
  ⟨(heartbeat_eviction_and_survival [("a", ⟨1, true⟩), ("b", ⟨2, false⟩)] "b"
      ⟨2, false⟩ (by simp) rfl).1 rfl,
   (heartbeat_eviction_and_survival [("a", ⟨1, true⟩), ("b", ⟨2, false⟩)] "a"
      ⟨1, true⟩ (by simp) rfl).2.1,
   (heartbeat_eviction_and_survival [("a", ⟨1, true⟩), ("b", ⟨2, false⟩)] "a"
      ⟨1, true⟩ (by simp) rfl).2.2 rfl 3⟩

/-- C8: ids are normalized only at registration time: every id the handshake
accepts is trim-and-lowercase normalized, while the direct-forward path looks
the client-supplied `to` up verbatim; hence when all registered keys are
normalized and the inbound `to` is a non-normalized variant (it differs from a
registered id only in case or surrounding whitespace), nothing is forwarded
and the sender gets the `not connected` error. -/
theorem forward_lookup_not_normalized (clients : Registry) (id toRaw ty : String)
    (fields : List (String × Json)) (now : Nat)
    (hkeys : ∀ k ∈ clients.map Prod.fst, normalizeId k = k)
    (_hreg : normalizeId toRaw ∈ clients.map Prod.fst)
    (hne : toRaw ≠ normalizeId toRaw)
    (hto : getField (Json.obj fields) "to" = some (Json.str toRaw))
    (hs : toRaw ≠ "")
    (hty : getField (Json.obj fields) "type" = some (Json.str ty)) :
    (∀ q, acceptConnection (some q) = some (normalizeId q) ∨
          acceptConnection (some q) = none) ∧
    onClientMessage clients id (some (Json.obj fields)) now =
      ([SendEvent.toSender (serverMsg "error"
          (Json.obj [("message",
            Json.str ("Target '" ++ toRaw ++ "' not connected"))]) now)], none) := by
  have hnone : mapGet clients toRaw = none := by
    rw [mapGet_eq_none_iff]
    intro hmem
    exact hne ((hkeys toRaw hmem).symm)
  have h1 : getField (setField (Json.obj fields) "from" (Json.str id)) "type" =
      some (Json.str ty) := by
    rw [getField_setField_ne _ _ _ _ (by decide)]; exact hty
  have h2 : getField (setField (Json.obj fields) "from" (Json.str id)) "to" =
      some (Json.str toRaw) := by
    rw [getField_setField_ne _ _ _ _ (by decide)]; exact hto
  have htruthy : jsTruthy (Json.str toRaw) = true := by simp [jsTruthy, hs]
  constructor
  · intro q
    by_cases hq : normalizeId q = "" <;> simp [acceptConnection, hq]
  · simp [onClientMessage, jsTypeofObject, jsIsNull, h1, h2, htruthy,
      sendToValue, sendTo, hnone, jsToString]

/-- C8 (witness): with only the normalized id `tv` registered (and open), an
envelope addressed to `to = "TV"` is not forwarded and draws the
`Target 'TV' not connected` error. -/
theorem forward_lookup_not_normalized_witness :
    onClientMessage [("tv", ⟨1, true⟩)] "a"
        (some (Json.obj [("type", Json.str "ping"), ("to", Json.str "TV")])) 4 =
      ([SendEvent.toSender (serverMsg "error"
          (Json.obj [("message", Json.str "Target 'TV' not connected")]) 4)],
       none) :=
  (forward_lookup_not_normalized [("tv", ⟨1, true⟩)] "a" "TV" "ping"
      [("type", Json.str "ping"), ("to", Json.str "TV")] 4
      (by decide) (by decide) (by decide) rfl (by decide) rfl).2

end Relay
